import Mathlib

/-!
# Verification of the AURA threat-to-action pipeline and call-lifecycle coordinator

Shallow embedding of the decision logic of `services/backend/src/backend`:

* `home_state_models.py` / `home_state_agent.py` — the device-state store
  (`StateValidator`, `HomeStateAgent._execute_*_action`, `process_request`);
* `threat_models.py` / `threat_assessment_agent.py` — `_rule_based_analysis`;
* `agent_orchestrator.py` — `_extract_threat_parameters`, the per-threat action
  generators and `_deduplicate_actions`;
* `__init__.py` — the `vapi_webhook` handler, `process_follow_up_call` and the
  `warning_call_ids` / `resolution_call_ids` / `pending_follow_ups` tracking state.

Python floats are modelled as `ℚ` (the pipeline only compares and multiplies
exactly representable constants), dicts as association lists in insertion
order, and sets as duplicate-free lists.  Timestamps, log output and the
human-readable commentary strings (`primary_concerns`, `recommended_actions`,
`analysis_summary`) are not modelled; no claim mentions them.  Python's
`list(set(..))` (whose order the language leaves unspecified) is determinised
as first-occurrence deduplication.
-/

namespace Aura

/-- A JSON-ish parameter value, the payload type of the duck-typed
`parameters: Dict[str, Any]` maps used throughout the backend. -/
inductive PValue where
  | num (q : ℚ)
  | str (s : String)
  | bool (b : Bool)
deriving DecidableEq, Repr

/-- Dictionary lookup on an association list (first binding wins, as in a
Python dict whose keys are unique). -/
def lookupParam (k : String) : List (String × PValue) → Option PValue
  | [] => none
  | (k', v) :: rest => if k' = k then some v else lookupParam k rest

/-- One `dict.update` step: an existing key is overwritten in place, a new key
is appended (Python dicts preserve insertion order). -/
def insertParam (l : List (String × PValue)) (kv : String × PValue) : List (String × PValue) :=
  if (lookupParam kv.1 l).isSome then
    l.map (fun p => if p.1 = kv.1 then kv else p)
  else
    l ++ [kv]

/-- `old.update(new)` on parameter dictionaries. -/
def mergeParams (old new : List (String × PValue)) : List (String × PValue) :=
  new.foldl insertParam old

/-- Python's `float(x)` applied to a parameter value: numbers pass through,
booleans coerce to 0/1; a general string raises (`ValueError`), which the
store surfaces as an error. -/
def toFloatQ : PValue → Except String ℚ
  | .num q => .ok q
  | .bool b => .ok (if b then 1 else 0)
  | .str s => .error ("could not convert string to float: " ++ s)

/-- Python truthiness of a parameter value (used by `bool(...)` coercions). -/
def pTruthy : PValue → Bool
  | .num q => q ≠ 0
  | .str s => s ≠ ""
  | .bool b => b

end Aura

namespace Aura

/-! ## Device model (`home_state_models.py`) -/

/-- `ActionType(str, Enum)`. -/
inductive ActionType where
  | read | set | toggle | adjust
deriving DecidableEq, Repr

/-- `DeviceType(str, Enum)`. -/
inductive DeviceType where
  | thermostat | battery | solar | grid
deriving DecidableEq, Repr

/-- The `.value` string of a `DeviceType`, used as the key in `HomeState.devices`. -/
def DeviceType.value : DeviceType → String
  | .thermostat => "thermostat"
  | .battery => "battery"
  | .solar => "solar"
  | .grid => "grid"

/-- `Action` (pydantic model): one device-control instruction. -/
structure Action where
  device_type : DeviceType
  action_type : ActionType
  parameters : List (String × PValue) := []
  target_value : Option ℚ := none
deriving DecidableEq, Repr

/-- `DeviceState`: status plus a property dictionary (`last_updated` not modelled). -/
structure DeviceState where
  status : String
  properties : List (String × PValue) := []
deriving DecidableEq, Repr

/-- `FinancialData`. -/
structure FinancialData where
  profit_today_usd : ℚ := 0
  energy_cost_savings_usd : ℚ := 0
  total_energy_sold_kwh : ℚ := 0
  total_energy_purchased_kwh : ℚ := 0
deriving DecidableEq, Repr

/-- `HomeState`: devices keyed by `DeviceType.value`, plus the financial ledger
(metadata and timestamps not modelled). -/
structure HomeState where
  devices : List (String × DeviceState) := []
  financials : FinancialData := {}
deriving DecidableEq, Repr

/-- `HomeState.get_device`. -/
def HomeState.getDevice (h : HomeState) (dt : DeviceType) : Option DeviceState :=
  h.devices.lookup dt.value

/-- `HomeState.update_device`: merge properties into an existing device, or
create it with status `"active"`. -/
def HomeState.updateDevice (h : HomeState) (dt : DeviceType)
    (props : List (String × PValue)) : HomeState :=
  match h.devices.lookup dt.value with
  | some d =>
      { h with devices :=
          h.devices.map (fun p =>
            if p.1 = dt.value then (p.1, { d with properties := mergeParams d.properties props })
            else p) }
  | none => { h with devices := h.devices ++ [(dt.value, ⟨"active", props⟩)] }

end Aura

namespace Aura

/-! ## `StateValidator` (`home_state_agent.py`)

Each validator walks the keys it knows in source order, bounds-checks them and
returns the sanitised dictionary, raising (`Except.error`) on the first
violation. -/

/-- Error text of the two temperature bound violations in
`validate_thermostat_properties`. -/
def tempErrMsg (t : ℚ) : String :=
  if t < 60 then "Temperature " ++ toString t ++ " F below minimum 60.0 F"
  else "Temperature " ++ toString t ++ " F above maximum 90.0 F"

/-- `StateValidator.validate_thermostat_properties`. -/
def validateThermostatProperties (props : List (String × PValue)) :
    Except String (List (String × PValue)) := do
  let mut validated : List (String × PValue) := []
  match lookupParam "temperature_f" props with
  | some v =>
      let temp ← toFloatQ v
      if temp < 60 then throw (tempErrMsg temp)
      else if temp > 90 then throw (tempErrMsg temp)
      else validated := validated ++ [("temperature_f", .num temp), ("target_temperature_f", .num temp)]
  | none => pure ()
  match lookupParam "mode" props with
  | some v =>
      if v ∈ [PValue.str "heat", .str "cool", .str "auto", .str "off"] then
        validated := validated ++ [("mode", v)]
      else throw "Invalid thermostat mode"
  | none => pure ()
  match lookupParam "fan_mode" props with
  | some v =>
      if v ∈ [PValue.str "auto", .str "on", .str "circulate"] then
        validated := validated ++ [("fan_mode", v)]
      else throw "Invalid fan mode"
  | none => pure ()
  return validated

/-- `StateValidator.validate_battery_properties`. -/
def validateBatteryProperties (props : List (String × PValue)) :
    Except String (List (String × PValue)) := do
  let mut validated : List (String × PValue) := []
  match lookupParam "soc_percent" props with
  | some v =>
      let soc ← toFloatQ v
      if soc < 0 ∨ soc > 100 then throw "Battery SOC must be between 0.0 and 100.0"
      else validated := validated ++ [("soc_percent", .num soc)]
  | none => pure ()
  match lookupParam "backup_reserve_percent" props with
  | some v =>
      let reserve ← toFloatQ v
      if reserve < 0 ∨ reserve > 100 then throw "Backup reserve must be between 0.0 and 100.0"
      else validated := validated ++ [("backup_reserve_percent", .num reserve)]
  | none => pure ()
  match lookupParam "grid_charging" props with
  | some v => validated := validated ++ [("grid_charging", .bool (pTruthy v))]
  | none => pure ()
  return validated

/-- `StateValidator.validate_solar_properties`. -/
def validateSolarProperties (props : List (String × PValue)) :
    Except String (List (String × PValue)) := do
  let mut validated : List (String × PValue) := []
  match lookupParam "current_production_kw" props with
  | some v =>
      let production ← toFloatQ v
      if production < 0 then throw "Solar production cannot be negative"
      else if production > 50 then throw "Solar production exceeds maximum 50.0 kW"
      else validated := validated ++ [("current_production_kw", .num production)]
  | none => pure ()
  match lookupParam "efficiency_percent" props with
  | some v =>
      let efficiency ← toFloatQ v
      if efficiency < 0 ∨ efficiency > 100 then throw "Solar efficiency must be between 0 and 100"
      else validated := validated ++ [("efficiency_percent", .num efficiency)]
  | none => pure ()
  return validated

/-- The `connection_status` values accepted by `validate_grid_properties`. -/
def allowedGridStatuses : List String := ["connected", "disconnected", "maintenance"]

/-- `StateValidator.validate_grid_properties`. -/
def validateGridProperties (props : List (String × PValue)) :
    Except String (List (String × PValue)) := do
  let mut validated : List (String × PValue) := []
  match lookupParam "connection_status" props with
  | some v =>
      match v with
      | .str s =>
          if s ∈ allowedGridStatuses then validated := validated ++ [("connection_status", .str s)]
          else throw ("Invalid grid connection status: " ++ s)
      | _ => throw "Invalid grid connection status"
  | none => pure ()
  match lookupParam "sell_energy_kwh" props with
  | some v =>
      let energy ← toFloatQ v
      if energy < 0 then throw "Cannot sell negative energy"
      else validated := validated ++ [("sell_energy_kwh", .num energy)]
  | none => pure ()
  match lookupParam "rate_usd_per_kwh" props with
  | some v =>
      let rate ← toFloatQ v
      if rate < 0 then throw "Energy rate cannot be negative"
      else validated := validated ++ [("rate_usd_per_kwh", .num rate)]
  | none => pure ()
  return validated

end Aura

namespace Aura

/-! ## `HomeStateAgent._execute_*_action` and `process_request`

A raised `HomeStateValidationError` escapes `_execute_action` and
`process_request` (neither catches it), so execution is modelled in
`Except String`; the agent object's `current_state` is mutated in place, so
`processRequest` returns the state reached so far next to the error. -/

/-- `HomeStateAgent._execute_thermostat_action`. -/
def executeThermostatAction (h : HomeState) (a : Action) : Except String HomeState := do
  let updates : List (String × PValue) :=
    if a.action_type = .set then
      (match lookupParam "temperature" a.parameters with
       | some v => [("target_temperature_f", v), ("temperature_f", v)]
       | none => []) ++
      (match lookupParam "mode" a.parameters with
       | some v => [("mode", v)]
       | none => [])
    else if a.action_type = .adjust then
      match a.target_value with
      | some t => [("target_temperature_f", .num t), ("temperature_f", .num t)]
      | none => []
    else []
  if updates.isEmpty then return h
  else
    let validated ← validateThermostatProperties updates
    return h.updateDevice .thermostat validated

/-- `HomeStateAgent._execute_battery_action`. -/
def executeBatteryAction (h : HomeState) (a : Action) : Except String HomeState := do
  let updates : List (String × PValue) :=
    if a.action_type = .set then
      (match lookupParam "soc_percent" a.parameters with
       | some v => [("soc_percent", v)]
       | none => []) ++
      (match lookupParam "backup_reserve" a.parameters with
       | some v => [("backup_reserve_percent", v)]
       | none => [])
    else if a.action_type = .adjust then
      match a.target_value with
      | some t => [("soc_percent", .num t)]
      | none => []
    else []
  if updates.isEmpty then return h
  else
    let validated ← validateBatteryProperties updates
    return h.updateDevice .battery validated

/-- `HomeStateAgent._execute_solar_action` (a `read` action changes nothing). -/
def executeSolarAction (h : HomeState) (a : Action) : Except String HomeState := do
  let updates : List (String × PValue) :=
    if a.action_type = .set then
      match lookupParam "production_kw" a.parameters with
      | some v => [("current_production_kw", v)]
      | none => []
    else []
  if updates.isEmpty then return h
  else
    let validated ← validateSolarProperties updates
    return h.updateDevice .solar validated

/-- `HomeStateAgent._execute_grid_action`: a sale (both `sell_energy_kwh` and
`rate_usd_per_kwh` validated) additionally credits the financial ledger and
records a `last_sale` note (the exact Python-formatted message text is not
modelled). -/
def executeGridAction (h : HomeState) (a : Action) : Except String HomeState := do
  let updates : List (String × PValue) :=
    if a.action_type = .set then
      (match lookupParam "connection_status" a.parameters with
       | some v => [("connection_status", v)]
       | none => []) ++
      (match lookupParam "sell_energy" a.parameters with
       | some v =>
          [("sell_energy_kwh", v),
           ("rate_usd_per_kwh", (lookupParam "rate_usd_per_kwh" a.parameters).getD (.num (83/100)))]
       | none => [])
    else []
  if updates.isEmpty then return h
  else
    let validated ← validateGridProperties updates
    match lookupParam "sell_energy_kwh" validated, lookupParam "rate_usd_per_kwh" validated with
    | some (.num e), some (.num r) =>
        let profit := e * r
        let h' := { h with financials :=
          { h.financials with
              profit_today_usd := h.financials.profit_today_usd + profit,
              total_energy_sold_kwh := h.financials.total_energy_sold_kwh + e } }
        return h'.updateDevice .grid (validated ++ [("last_sale", .str "energy sale recorded")])
    | _, _ => return h.updateDevice .grid validated

/-- `HomeStateAgent._execute_action`: dispatch on the device type. -/
def executeAction (h : HomeState) (a : Action) : Except String HomeState :=
  match a.device_type with
  | .thermostat => executeThermostatAction h a
  | .battery => executeBatteryAction h a
  | .solar => executeSolarAction h a
  | .grid => executeGridAction h a

/-- `HomeStateAgent.process_request`: apply the batch sequentially; the first
raised validation error aborts the loop, leaving all earlier in-place
mutations applied.  Returns the state actually reached and the error, if any. -/
def processRequest (h : HomeState) : List Action → HomeState × Option String
  | [] => (h, none)
  | a :: rest =>
      match executeAction h a with
      | .error e => (h, some e)
      | .ok h' => processRequest h' rest

end Aura

namespace Aura

/-! ## Threat model (`threat_models.py`) and `_rule_based_analysis`

`_rule_based_analysis` reads only `weather_data.temperature_f` and
`grid_data.current_demand_mw`, so the two optional inputs are modelled as the
optional readings themselves. -/

/-- `ThreatLevel(str, Enum)`. -/
inductive ThreatLevel where
  | low | moderate | high | critical
deriving DecidableEq, Repr, BEq

/-- Numeric rank of a threat level under the ordering low < moderate < high < critical. -/
def levelRank : ThreatLevel → ℕ
  | .low => 0
  | .moderate => 1
  | .high => 2
  | .critical => 3

/-- `ThreatType(str, Enum)`.  Note the enum has **no** `AIR_QUALITY` member,
although `_rule_based_analysis` line 441 refers to `ThreatType.AIR_QUALITY`. -/
inductive ThreatType where
  | heat_wave | grid_strain | power_outage | energy_shortage | combined
deriving DecidableEq, Repr, BEq

/-- `ThreatIndicator` (the free-text `description` field is not modelled). -/
structure ThreatIndicator where
  indicator_type : String
  value : ℚ
  threshold : ℚ
  severity : ThreatLevel
  confidence : ℚ
deriving DecidableEq, Repr

/-- `ThreatAnalysis` (the commentary string fields are not modelled). -/
structure ThreatAnalysis where
  overall_threat_level : ThreatLevel
  threat_types : List ThreatType
  confidence_score : ℚ
  indicators : List ThreatIndicator
deriving DecidableEq, Repr

/-- Weather half of `_rule_based_analysis`: the temperature threshold ladder
(>105 critical, >100 high, >95 moderate, otherwise no indicator), each rung
also appending `HEAT_WAVE`. -/
def weatherAnalysis : Option ℚ → List ThreatIndicator × List ThreatType
  | none => ([], [])
  | some temp =>
      if temp > 105 then ([⟨"temperature", temp, 105, .critical, 95/100⟩], [.heat_wave])
      else if temp > 100 then ([⟨"temperature", temp, 100, .high, 85/100⟩], [.heat_wave])
      else if temp > 95 then ([⟨"temperature", temp, 95, .moderate, 75/100⟩], [.heat_wave])
      else ([], [])

/-- Grid half of `_rule_based_analysis`: the demand threshold ladder
(>85000 critical — which also appends `POWER_OUTAGE` —, >80000 high,
>75000 moderate, otherwise no indicator). -/
def gridAnalysis : Option ℚ → List ThreatIndicator × List ThreatType
  | none => ([], [])
  | some demand =>
      if demand > 85000 then
        ([⟨"grid_demand", demand, 85000, .critical, 9/10⟩], [.grid_strain, .power_outage])
      else if demand > 80000 then ([⟨"grid_demand", demand, 80000, .high, 8/10⟩], [.grid_strain])
      else if demand > 75000 then ([⟨"grid_demand", demand, 75000, .moderate, 7/10⟩], [.grid_strain])
      else ([], [])

/-- The overall-level aggregation of `_rule_based_analysis` lines 421-429:
any critical indicator → critical, else any high → high, else any moderate →
moderate, else low. -/
def overallLevel (inds : List ThreatIndicator) : ThreatLevel :=
  if inds.any (fun i => i.severity = .critical) then .critical
  else if inds.any (fun i => i.severity = .high) then .high
  else if inds.any (fun i => i.severity = .moderate) then .moderate
  else .low

/-- First-occurrence deduplication (the determinisation of Python's
`list(set(xs))` used by this embedding). -/
def firstDedup {α : Type} [DecidableEq α] : List α → List α
  | [] => []
  | x :: xs => x :: (firstDedup xs).filter (fun y => y ≠ x)

/-- `ThreatAssessmentAgent._rule_based_analysis`.  When more than two distinct
threat types fire, the source builds the priority dictionary
`{ThreatType.POWER_OUTAGE: 4, ..., ThreatType.AIR_QUALITY: 1}`; since the
`ThreatType` enum has no `AIR_QUALITY` member that expression raises
`AttributeError`, so the analysis never returns in that case.  The
`confidence_score` of a returned analysis is the literal constant `0.7`
(line 456). -/
def ruleBasedAnalysis (weather grid : Option ℚ) : Except String ThreatAnalysis :=
  let wa := weatherAnalysis weather
  let ga := gridAnalysis grid
  let indicators := wa.1 ++ ga.1
  let overall := overallLevel indicators
  let threatTypes := firstDedup (wa.2 ++ ga.2)
  if threatTypes.length > 2 then
    .error "AttributeError: type object ThreatType has no attribute AIR_QUALITY"
  else
    .ok ⟨overall, threatTypes, 7/10, indicators⟩

end Aura

namespace Aura

/-! ## Action generation (`agent_orchestrator.py`) -/

/-- The parameter record filled by `AgentOrchestrator._extract_threat_parameters`. -/
structure ThreatParams where
  temperature : Option ℚ := none
  grid_demand : Option ℚ := none
  humidity : Option ℚ := none
  wind_speed : Option ℚ := none
  heat_index : Option ℚ := none
  grid_frequency : Option ℚ := none
  reserve_margin : Option ℚ := none
deriving DecidableEq, Repr

/-- `AgentOrchestrator._extract_threat_parameters`. -/
def extractThreatParameters (ta : ThreatAnalysis) : ThreatParams :=
  ta.indicators.foldl
    (fun p i =>
      if i.indicator_type = "temperature" then { p with temperature := some i.value }
      else if i.indicator_type = "grid_demand" then { p with grid_demand := some i.value }
      else if i.indicator_type = "humidity" then { p with humidity := some i.value }
      else if i.indicator_type = "wind_speed" then { p with wind_speed := some i.value }
      else if i.indicator_type = "heat_index" then { p with heat_index := some i.value }
      else if i.indicator_type = "grid_frequency" then { p with grid_frequency := some i.value }
      else if i.indicator_type = "reserve_margin" then { p with reserve_margin := some i.value }
      else p)
    {}

/-- `AgentOrchestrator._generate_heat_wave_actions` (the `threat_level`
argument is unused in the source as well). -/
def generateHeatWaveActions (p : ThreatParams) (_level : ThreatLevel) : List Action :=
  match p.temperature with
  | none => []
  | some temp =>
      let tier : ℚ × ℚ × String :=
        if temp > 105 then (65, 40, "high")
        else if temp > 100 then (68, 30, "high")
        else if temp > 95 then (70, 25, "auto")
        else if temp > 90 then (72, 20, "auto")
        else (74, 15, "auto")
      let thermostat : Action :=
        ⟨.thermostat, .set,
         [("temperature", .num tier.1), ("mode", .str "cool"), ("fan_mode", .str tier.2.2)], none⟩
      if temp > 95 then
        [thermostat,
         ⟨.battery, .set, [("soc_percent", .num 100), ("backup_reserve", .num tier.2.1)], none⟩]
      else [thermostat]

/-- `AgentOrchestrator._generate_grid_strain_actions`. -/
def generateGridStrainActions (p : ThreatParams) (_level : ThreatLevel) : List Action :=
  match p.grid_demand with
  | none => []
  | some demand =>
      let tier : ℚ × ℚ × String × Bool :=
        if demand > 80000 then (100, 50, "backup_ready", false)
        else if demand > 75000 then (95, 40, "conservation", false)
        else if demand > 70000 then (90, 30, "monitoring", true)
        else (80, 20, "normal", true)
      let base : List Action :=
        [⟨.battery, .set, [("soc_percent", .num tier.1), ("backup_reserve", .num tier.2.1)], none⟩,
         ⟨.grid, .set, [("connection_status", .str tier.2.2.1)], none⟩]
      if tier.2.2.2 && decide (demand > 70000) then
        base ++ [⟨.grid, .set, [("sell_energy", .num 3), ("rate_usd_per_kwh", .num (95/100))], none⟩]
      else base

/-- `AgentOrchestrator._generate_power_outage_actions`. -/
def generatePowerOutageActions (_p : ThreatParams) (_level : ThreatLevel) : List Action :=
  [⟨.battery, .set, [("soc_percent", .num 100), ("backup_reserve", .num 60)], none⟩,
   ⟨.thermostat, .set, [("temperature", .num 70), ("mode", .str "cool")], none⟩,
   ⟨.grid, .set, [("connection_status", .str "outage_prep")], none⟩]

/-- `AgentOrchestrator._generate_energy_shortage_actions`. -/
def generateEnergyShortageActions (_p : ThreatParams) (_level : ThreatLevel) : List Action :=
  [⟨.grid, .set, [("sell_energy", .num 5), ("rate_usd_per_kwh", .num (120/100))], none⟩,
   ⟨.battery, .set, [("soc_percent", .num 85), ("backup_reserve", .num 25)], none⟩]

/-- `AgentOrchestrator._generate_critical_emergency_actions`. -/
def generateCriticalEmergencyActions (_p : ThreatParams) : List Action :=
  [⟨.battery, .set, [("soc_percent", .num 100), ("backup_reserve", .num 50)], none⟩,
   ⟨.thermostat, .set,
    [("temperature", .num 65), ("mode", .str "cool"), ("fan_mode", .str "high")], none⟩,
   ⟨.grid, .set, [("connection_status", .str "emergency")], none⟩]

/-- `AgentOrchestrator._generate_high_priority_actions`. -/
def generateHighPriorityActions (_p : ThreatParams) : List Action :=
  [⟨.battery, .set, [("soc_percent", .num 95), ("backup_reserve", .num 35)], none⟩,
   ⟨.thermostat, .set, [("temperature", .num 68), ("mode", .str "cool")], none⟩]

/-- The `(device_type, action_type)` pair used as the deduplication key. -/
def actionKey (a : Action) : DeviceType × ActionType := (a.device_type, a.action_type)

/-- The inner replace-and-break loop of `_deduplicate_actions`: overwrite the
first list entry that has the same key. -/
def replaceFirst : List Action → Action → List Action
  | [], _ => []
  | b :: rest, a => if actionKey b = actionKey a then a :: rest else b :: replaceFirst rest a

/-- The walk of `_deduplicate_actions` over the concatenated action list; the
`seen` set of the source always equals the key set of the accumulator. -/
def dedupLoop : List Action → List Action → List Action
  | acc, [] => acc
  | acc, a :: rest =>
      if actionKey a ∈ acc.map actionKey then dedupLoop (replaceFirst acc a) rest
      else dedupLoop (acc ++ [a]) rest

/-- `AgentOrchestrator._deduplicate_actions`. -/
def deduplicateActions (l : List Action) : List Action := dedupLoop [] l

/-- The concatenated (pre-deduplication) action list of
`AgentOrchestrator._generate_home_actions`: per-threat-type generators in
threat-type order, then the critical/high emergency override block. -/
def rawHomeActions (ta : ThreatAnalysis) : List Action :=
  let p := extractThreatParameters ta
  let fromTypes :=
    (ta.threat_types.map (fun tt =>
      match tt with
      | .heat_wave => generateHeatWaveActions p ta.overall_threat_level
      | .grid_strain => generateGridStrainActions p ta.overall_threat_level
      | .power_outage => generatePowerOutageActions p ta.overall_threat_level
      | .energy_shortage => generateEnergyShortageActions p ta.overall_threat_level
      | .combined => [])).flatten
  fromTypes ++
    (if ta.overall_threat_level = .critical then generateCriticalEmergencyActions p
     else if ta.overall_threat_level = .high then generateHighPriorityActions p
     else [])

/-- `AgentOrchestrator._generate_home_actions`: the raw list followed by the
deduplication pass. -/
def generateHomeActions (ta : ThreatAnalysis) : List Action :=
  deduplicateActions (rawHomeActions ta)

end Aura

namespace Aura

/-! ## Call-lifecycle coordinator (`__init__.py`)

The module-level `warning_call_ids` / `resolution_call_ids` sets are modelled
as duplicate-free lists and the `pending_follow_ups` dict as an association
list.  `vapi_webhook` and `process_follow_up_call` run in a cooperative
single-threaded event loop; each handler invocation is one atomic transition
here. -/

/-- One `pending_follow_ups` record (`ended_at` timestamp not modelled). -/
structure FollowUp where
  customer_number : String
  processed : Bool
deriving DecidableEq, Repr

/-- The shared coordinator state. -/
structure CoordState where
  warning_call_ids : List String
  resolution_call_ids : List String
  pending_follow_ups : List (String × FollowUp)
deriving DecidableEq, Repr

/-- The coordinator state at process start: all three structures empty. -/
def initCoordState : CoordState := ⟨[], [], []⟩

/-- The fields of an inbound Vapi webhook payload that `vapi_webhook` reads:
`message.type`, `message.status`, `message.call.id`,
`message.call.customer.number` and `message.endedReason`. -/
structure WebhookEvent where
  message_type : String
  status : Option String := none
  call_id : Option String := none
  customer_number : Option String := none
  ended_reason : Option String := none
deriving DecidableEq, Repr

/-- The `ended_reason` values that make the handler skip the follow-up. -/
def skipReasons : List String := ["voicemail", "customer-did-not-answer", "assistant-ended-call"]

/-- `ended_reason in ["voicemail", ...]` (a `None` reason matches nothing). -/
def reasonSkipped : Option String → Bool
  | none => false
  | some r => skipReasons.contains r

/-- The `is_call_ended` test of `vapi_webhook`. -/
def isCallEnded (e : WebhookEvent) : Bool :=
  (e.message_type == "status-update" && e.status == some "ended")
    || e.message_type == "end-of-call-report"

/-- Python truthiness of an optional string (`if call_id and customer_number`). -/
def optTruthy : Option String → Bool
  | none => false
  | some s => s != ""

/-- Dictionary lookup in the `pending_follow_ups` table (first binding wins,
as in a Python dict whose keys are unique). -/
def lookupPending (k : String) : List (String × FollowUp) → Option FollowUp
  | [] => none
  | (k', v) :: rest => if k' = k then some v else lookupPending k rest

/-- `vapi_webhook`: returns the acknowledgment status token, the updated
coordinator state and the list of background `process_follow_up_call` tasks
scheduled (each as a `(call_id, customer_number)` pair).  Mirrors the source
branch for branch; `set.discard` is removal of every copy from the
list-as-set. -/
def vapiWebhook (e : WebhookEvent) (s : CoordState) :
    String × CoordState × List (String × String) :=
  if !isCallEnded e then ("acknowledged", s, [])
  else if reasonSkipped e.ended_reason then ("skipped", s, [])
  else
    match e.call_id with
    | none => ("not_warning_call", s, [])
    | some cid =>
        if cid ∉ s.warning_call_ids then ("not_warning_call", s, [])
        else
          let s1 := { s with warning_call_ids := s.warning_call_ids.filter (fun x => x ≠ cid) }
          if optTruthy e.call_id && optTruthy e.customer_number then
            if (lookupPending cid s1.pending_follow_ups).isSome then ("already_queued", s1, [])
            else
              let num := e.customer_number.getD ""
              ("processed",
               { s1 with pending_follow_ups := s1.pending_follow_ups ++ [(cid, ⟨num, false⟩)] },
               [(cid, num)])
          else ("processed", s1, [])

/-- What `voice_service.send_resolution_call` did: returned a success payload
(with an optional `call_id`), returned a failure payload, or raised. -/
inductive CallOutcome where
  | success (rid : Option String)
  | failure
  | exception
deriving DecidableEq, Repr

/-- `set.add` on the list-as-set model. -/
def addId (l : List String) (id : String) : List String :=
  if id ∈ l then l else l ++ [id]

/-- Mark the `pending_follow_ups` record of `cid` processed. -/
def markProcessed (l : List (String × FollowUp)) (cid : String) : List (String × FollowUp) :=
  l.map (fun p => (p.1, if p.1 = cid then { p.2 with processed := true } else p.2))

/-- `del pending_follow_ups[cid]`. -/
def delPending (l : List (String × FollowUp)) (cid : String) : List (String × FollowUp) :=
  l.filter (fun p => p.1 ≠ cid)

/-- `process_follow_up_call`, run after its 15-second sleep (the voice service
is assumed available).  The whole body sits in `try/except Exception`, so the
function always returns; note that when `send_resolution_call` raises, the
`del pending_follow_ups[call_id]` cleanup line — which sits *after* the call
inside the `try` — is skipped, so the record survives (marked processed). -/
def processFollowUp (cid : String) (_customer_number : String) (outcome : CallOutcome)
    (s : CoordState) : CoordState :=
  match lookupPending cid s.pending_follow_ups with
  | none => s
  | some info =>
      if info.processed then s
      else
        let s1 := { s with pending_follow_ups := markProcessed s.pending_follow_ups cid }
        match outcome with
        | .exception => s1
        | .failure => { s1 with pending_follow_ups := delPending s1.pending_follow_ups cid }
        | .success rid =>
            let s2 :=
              match rid with
              | some r =>
                  if r ≠ "" then { s1 with resolution_call_ids := addId s1.resolution_call_ids r }
                  else s1
              | none => s1
            { s2 with pending_follow_ups := delPending s2.pending_follow_ups cid }

/-- Lines 204-206 of `__init__.py`: after `send_warning_call`, a truthy
returned call id is added to `warning_call_ids`. -/
def trackWarningCall (wid : Option String) (s : CoordState) : CoordState :=
  match wid with
  | some w => if w ≠ "" then { s with warning_call_ids := addId s.warning_call_ids w } else s
  | none => s

/-- One atomic transition of the coordinator: placing a warning call (whose
provider-issued id is fresh, in particular not a previously recorded
resolution id), one webhook delivery, or one run of a follow-up task (whose
resolution call, if placed, likewise gets a fresh id not currently tracked as
a warning call). -/
inductive CoordStep : CoordState → CoordState → Prop
  | placeWarning (wid : String) (s : CoordState) :
      wid ∉ s.resolution_call_ids → CoordStep s (trackWarningCall (some wid) s)
  | webhook (e : WebhookEvent) (s : CoordState) :
      CoordStep s (vapiWebhook e s).2.1
  | followUp (cid num : String) (oc : CallOutcome) (s : CoordState) :
      (∀ rid, oc = .success (some rid) → rid ∉ s.warning_call_ids) →
      CoordStep s (processFollowUp cid num oc s)

/-- The coordinator states reachable from process start. -/
inductive CoordReachable : CoordState → Prop
  | init : CoordReachable initCoordState
  | step {s s' : CoordState} : CoordReachable s → CoordStep s s' → CoordReachable s'

end Aura

namespace Aura

/-! ## Auxiliary definitions used by the statements -/

/-- The last action of a list carrying a given `(device_type, action_type)` key. -/
def lastWithKey (l : List Action) (k : DeviceType × ActionType) : Option Action :=
  (l.filter (fun a => actionKey a = k)).getLast?

/-- Modelled from the spec: "`confidence` is the minimum of contributing
indicator confidences (conservative aggregation), clamped to [0,1]" — the
aggregation the specification describes, for comparison against the source's
`confidence_score`. -/
def specMinConfidence (inds : List ThreatIndicator) : ℚ :=
  max 0 (min 1 (inds.foldr (fun i m => min i.confidence m) 1))

/-- The six `connection_status` tier values emitted by the orchestrator's grid
actions (`_generate_grid_strain_actions`, `_generate_power_outage_actions`,
`_generate_critical_emergency_actions`). -/
def gridTierStatuses : List String :=
  ["backup_ready", "conservation", "monitoring", "normal", "outage_prep", "emergency"]

/-- Whether an `Except` result is a normal return. -/
def exOk {ε α : Type} : Except ε α → Bool
  | .ok _ => true
  | .error _ => false

/-- A concrete provisioned home used by the concrete-input theorems. -/
def demoHomeState : HomeState :=
  ⟨[("thermostat", ⟨"active", [("temperature_f", .num 72), ("mode", .str "cool")]⟩),
    ("battery", ⟨"active", [("soc_percent", .num 45)]⟩),
    ("solar", ⟨"active", [("current_production_kw", .num 2)]⟩),
    ("grid", ⟨"active", [("connection_status", .str "connected")]⟩)],
   {}⟩

end Aura

namespace Aura

/-! ## Batch-application lemmas (`process_request`) -/

/-- Appending one action to a batch: it runs only if the whole prefix
succeeded, and a failure leaves the prefix's state in place. -/
theorem processRequest_append_single (h : HomeState) (acts : List Action) (a : Action) :
    processRequest h (acts ++ [a]) =
      match processRequest h acts with
      | (st, none) =>
          (match executeAction st a with
           | .ok st' => (st', none)
           | .error e => (st, some e))
      | (st, some e) => (st, some e) := by
  induction acts generalizing h with
  | nil =>
      simp only [List.nil_append, processRequest]
      cases hx : executeAction h a <;> simp [processRequest]
  | cons b bs ih =>
      simp only [List.cons_append, processRequest]
      cases hx : executeAction h b with
      | error e => rfl
      | ok h' => exact ih h'

/-- A thermostat `set` whose `temperature` parameter is out of the
60–90 °F band is rejected by `validate_thermostat_properties` without
touching the state. -/
theorem executeAction_thermostat_set_out_of_bounds (h : HomeState) (t : ℚ)
    (hb : t < 60 ∨ t > 90) :
    executeAction h ⟨.thermostat, .set, [("temperature", .num t)], none⟩ =
      .error (tempErrMsg t) := by
  rcases hb with hlt | hgt
  · simp [executeAction, executeThermostatAction, lookupParam,
      validateThermostatProperties, toFloatQ, hlt, Bind.bind, Except.bind, Functor.map,
      Except.map, throw, throwThe, MonadExceptOf.throw]
  · have hnlt : ¬ t < 60 := by linarith
    simp [executeAction, executeThermostatAction, lookupParam,
      validateThermostatProperties, toFloatQ, hnlt, hgt, Bind.bind, Except.bind, Functor.map,
      Except.map, throw, throwThe, MonadExceptOf.throw]

/-- A grid `set` whose `connection_status` is not one of the three accepted
values is rejected by `validate_grid_properties` without touching the state. -/
theorem executeAction_grid_status_invalid (h : HomeState) (st : String)
    (hst : st ∉ allowedGridStatuses) :
    executeAction h ⟨.grid, .set, [("connection_status", .str st)], none⟩ =
      .error ("Invalid grid connection status: " ++ st) := by
  simp [executeAction, executeGridAction, lookupParam, validateGridProperties, hst,
    Bind.bind, Except.bind, Functor.map, Except.map, throw, throwThe, MonadExceptOf.throw]

/-- C4 (amended): `process_request` applies the batch sequentially; a
thermostat `set` carrying its target under the key the executor actually
reads (`temperature`) with an out-of-bounds value stops processing at that
action with a raised validation error, the violating property is never
written, and the mutations of all earlier actions remain applied — the
final state is exactly the state after the successful prefix. -/
theorem batch_aborts_on_out_of_bounds_temperature (h : HomeState) (acts : List Action) (t : ℚ)
    (hb : t < 60 ∨ t > 90) (hpre : (processRequest h acts).2 = none) :
    processRequest h (acts ++ [⟨.thermostat, .set, [("temperature", .num t)], none⟩]) =
      ((processRequest h acts).1, some (tempErrMsg t)) := by
  rw [processRequest_append_single]
  rcases hq : processRequest h acts with ⟨st, err⟩
  rw [hq] at hpre
  simp only at hpre
  subst hpre
  simp [executeAction_thermostat_set_out_of_bounds st t hb]

/-- C4 (witness): with the prior battery action applied, the out-of-bounds
thermostat action aborts the two-action batch and keeps the battery write. -/
theorem batch_aborts_on_out_of_bounds_temperature_witness :
    ((150:ℚ) < 60 ∨ (150:ℚ) > 90) ∧
    (processRequest demoHomeState [⟨.battery, .set, [("soc_percent", .num 50)], none⟩]).2 = none ∧
    processRequest demoHomeState
        ([⟨.battery, .set, [("soc_percent", .num 50)], none⟩] ++
          [⟨.thermostat, .set, [("temperature", .num 150)], none⟩]) =
      ((processRequest demoHomeState [⟨.battery, .set, [("soc_percent", .num 50)], none⟩]).1,
        some (tempErrMsg 150)) :=
  ⟨Or.inr (by norm_num), by decide,
   batch_aborts_on_out_of_bounds_temperature demoHomeState
     [⟨.battery, .set, [("soc_percent", .num 50)], none⟩] 150
     (Or.inr (by norm_num)) (by decide)⟩

/-- C4 (counterexample): the claim's own example input — a thermostat `set`
with the key `temperature_f` set to 150 — is *silently ignored* by
`_execute_thermostat_action` (which only reads the keys `temperature` and
`mode`): the batch succeeds and reports no failure, contradicting
"processing stops at the failing action and the call reports failure". -/
theorem thermostat_temperature_f_key_ignored :
    (150:ℚ) > 90 ∧
    processRequest demoHomeState
        [⟨.thermostat, .set, [("temperature_f", .num 150)], none⟩] =
      (demoHomeState, none) := by
  constructor
  · norm_num
  · decide

/-- C10: the per-tier `connection_status` values emitted by the
orchestrator's grid actions are exactly the six tier tokens, none of which
is accepted by `validate_grid_properties` (it only accepts `connected`,
`disconnected`, `maintenance`): executing any of them raises the validation
error and aborts the batch at that action, preserving the prefix state. -/
theorem generator_grid_statuses_fail_validation :
    (∀ (p : ThreatParams) (lvl : ThreatLevel) (a : Action) (st : String),
        (a ∈ generateGridStrainActions p lvl ∨ a ∈ generatePowerOutageActions p lvl ∨
          a ∈ generateCriticalEmergencyActions p) →
        lookupParam "connection_status" a.parameters = some (.str st) →
        st ∈ gridTierStatuses) ∧
    (∀ st ∈ gridTierStatuses, ∀ (h : HomeState) (acts : List Action),
        (processRequest h acts).2 = none →
        processRequest h (acts ++ [⟨.grid, .set, [("connection_status", .str st)], none⟩]) =
          ((processRequest h acts).1, some ("Invalid grid connection status: " ++ st))) := by
  constructor
  · intro p lvl a st hmem hlook
    rcases hmem with hmem | hmem | hmem
    · rcases hdemand : p.grid_demand with _ | demand <;>
        simp only [generateGridStrainActions, hdemand] at hmem
      · simp at hmem
      · split_ifs at hmem <;> simp at hmem <;>
          rcases hmem with rfl | rfl | rfl <;>
          simp [lookupParam] at hlook <;>
          (subst hlook; decide)
    · simp only [generatePowerOutageActions] at hmem
      simp at hmem
      rcases hmem with rfl | rfl | rfl <;> simp [lookupParam] at hlook <;>
        (subst hlook; decide)
    · simp only [generateCriticalEmergencyActions] at hmem
      simp at hmem
      rcases hmem with rfl | rfl | rfl <;> simp [lookupParam] at hlook <;>
        (subst hlook; decide)
  · intro st hst h acts hpre
    have hnot : st ∉ allowedGridStatuses := by
      simp [gridTierStatuses] at hst
      rcases hst with rfl | rfl | rfl | rfl | rfl | rfl <;> decide
    rw [processRequest_append_single]
    rcases hq : processRequest h acts with ⟨st', err⟩
    rw [hq] at hpre
    simp only at hpre
    subst hpre
    simp [executeAction_grid_status_invalid st' st hnot]

/-- C10 (witness): the `backup_ready` tier token is rejected and aborts a
singleton batch on the demo home. -/
theorem generator_grid_statuses_fail_validation_witness :
    "backup_ready" ∈ gridTierStatuses ∧
    (processRequest demoHomeState []).2 = none ∧
    processRequest demoHomeState
        ([] ++ [⟨.grid, .set, [("connection_status", .str "backup_ready")], none⟩]) =
      ((processRequest demoHomeState []).1,
        some ("Invalid grid connection status: " ++ "backup_ready")) :=
  ⟨by decide, by decide,
   generator_grid_statuses_fail_validation.2 "backup_ready" (by decide) demoHomeState []
     (by decide)⟩

/-! ## Threat-classification lemmas -/

/-- A returned rule-based analysis carries `overallLevel` of the concatenated
weather and grid indicators. -/
theorem ruleBasedAnalysis_ok_level (w g : Option ℚ) (a : ThreatAnalysis)
    (h : ruleBasedAnalysis w g = .ok a) :
    a.overall_threat_level = overallLevel ((weatherAnalysis w).1 ++ (gridAnalysis g).1) := by
  simp only [ruleBasedAnalysis] at h
  split_ifs at h
  cases h
  rfl

/-- The rank of the aggregated level of a concatenation is the maximum of the
two parts' ranks. -/
theorem overallLevel_append (xs ys : List ThreatIndicator) :
    levelRank (overallLevel (xs ++ ys)) =
      max (levelRank (overallLevel xs)) (levelRank (overallLevel ys)) := by
  simp only [overallLevel, List.any_append, Bool.or_eq_true]
  split_ifs <;> simp_all [levelRank]

/-- The temperature threshold ladder is monotone: a hotter reading never
yields a lower-ranked weather severity. -/
theorem weather_rank_mono (t₁ t₂ : ℚ) (h : t₁ ≤ t₂) :
    levelRank (overallLevel (weatherAnalysis (some t₁)).1) ≤
      levelRank (overallLevel (weatherAnalysis (some t₂)).1) := by
  simp only [weatherAnalysis]
  split_ifs <;>
    first
      | (exfalso; linarith)
      | (simp only [overallLevel, levelRank, List.any_cons, List.any_nil] <;> simp <;> omega)

end Aura

namespace Aura

/-- C7 (amended): the `confidence_score` of every analysis that
`_rule_based_analysis` returns is the literal constant `0.7` (line 456),
irrespective of the indicators — it is not an aggregation of the indicator
confidences (though the constant does lie in [0,1]). -/
theorem confidence_score_is_constant (w g : Option ℚ) (a : ThreatAnalysis)
    (h : ruleBasedAnalysis w g = .ok a) :
    a.confidence_score = 7/10 ∧ (0:ℚ) ≤ 7/10 ∧ (7/10:ℚ) ≤ 1 := by
  refine ⟨?_, by norm_num, by norm_num⟩
  simp only [ruleBasedAnalysis] at h
  split_ifs at h
  cases h
  rfl

/-- C7 (witness): the empty-input analysis has confidence 0.7. -/
theorem confidence_score_is_constant_witness :
    ruleBasedAnalysis none none = .ok ⟨.low, [], 7/10, []⟩ ∧
    (ThreatAnalysis.mk .low [] (7/10) []).confidence_score = 7/10 ∧
    (0:ℚ) ≤ 7/10 ∧ (7/10:ℚ) ≤ 1 :=
  ⟨rfl,
   (confidence_score_is_constant none none ⟨.low, [], 7/10, []⟩ rfl).1,
   (confidence_score_is_constant none none ⟨.low, [], 7/10, []⟩ rfl).2.1,
   (confidence_score_is_constant none none ⟨.low, [], 7/10, []⟩ rfl).2.2⟩

/-- C7 (counterexample): for the single reading temperature = 106 °F the only
contributing indicator has confidence 0.95, so the claimed minimum-aggregation
would give 0.95, but the analysis returned by the code carries 0.7. -/
theorem confidence_score_not_min_counterexample :
    (ruleBasedAnalysis (some 106) none).toOption.map
        (fun ta => (ta.confidence_score, specMinConfidence ta.indicators)) =
      some (7/10, 95/100) ∧ (7/10:ℚ) ≠ 95/100 := by
  constructor
  · have h : ruleBasedAnalysis (some 106) none =
        .ok ⟨.critical, [.heat_wave], 7/10, [⟨"temperature", 106, 105, .critical, 95/100⟩]⟩ := rfl
    rw [h]
    simp [Except.toOption, specMinConfidence, min_def, max_def]
    norm_num
  · norm_num

/-- C8 (code evaluated at the failing input): with temperature = 106 °F and
grid demand = 86000 MW three distinct threat types are implied
(`HEAT_WAVE`, `GRID_STRAIN`, `POWER_OUTAGE`), so `_rule_based_analysis`
enters its `len(threat_types) > 2` truncation branch — whose priority
dictionary mentions the non-existent enum member `ThreatType.AIR_QUALITY` —
and raises `AttributeError` instead of returning the top-2 list the claim
describes. -/
theorem threat_types_over_two_raises :
    firstDedup ((weatherAnalysis (some 106)).2 ++ (gridAnalysis (some 86000)).2) =
      [.heat_wave, .grid_strain, .power_outage] ∧
    ruleBasedAnalysis (some 106) (some 86000) =
      .error "AttributeError: type object ThreatType has no attribute AIR_QUALITY" := by
  exact ⟨by decide, rfl⟩

/-- C9 (amended): whenever both classifications actually return (the
`ThreatType.AIR_QUALITY` `AttributeError` of the >2-threat-types branch not
being hit), a hotter temperature reading with the same grid input never
yields a lower overall threat level. -/
theorem overall_level_monotone (t₁ t₂ : ℚ) (g : Option ℚ) (a₁ a₂ : ThreatAnalysis)
    (hlt : t₁ < t₂)
    (h₁ : ruleBasedAnalysis (some t₁) g = .ok a₁)
    (h₂ : ruleBasedAnalysis (some t₂) g = .ok a₂) :
    levelRank a₁.overall_threat_level ≤ levelRank a₂.overall_threat_level := by
  rw [ruleBasedAnalysis_ok_level _ _ _ h₁, ruleBasedAnalysis_ok_level _ _ _ h₂,
    overallLevel_append, overallLevel_append]
  exact max_le_max (weather_rank_mono t₁ t₂ hlt.le) le_rfl

/-- C9 (witness): 90 °F classifies to low, 106 °F to critical. -/
theorem overall_level_monotone_witness :
    (90:ℚ) < 106 ∧
    ruleBasedAnalysis (some 90) none = .ok ⟨.low, [], 7/10, []⟩ ∧
    ruleBasedAnalysis (some 106) none =
      .ok ⟨.critical, [.heat_wave], 7/10, [⟨"temperature", 106, 105, .critical, 95/100⟩]⟩ ∧
    levelRank (ThreatAnalysis.mk .low [] (7/10) []).overall_threat_level ≤
      levelRank (ThreatAnalysis.mk .critical [.heat_wave] (7/10)
        [⟨"temperature", 106, 105, .critical, 95/100⟩]).overall_threat_level :=
  ⟨by norm_num, rfl, rfl,
   overall_level_monotone 90 106 none _ _ (by norm_num) rfl rfl⟩

/-- C9 (counterexample): with the shared grid reading 86000 MW, classifying
90 °F returns (critical), but classifying the hotter 100 °F raises the
`ThreatType.AIR_QUALITY` `AttributeError` (three threat types fire), so the
claimed comparison `classify(t1).overall_level <= classify(t2).overall_level`
has no right-hand side — the classifier produces no assessment at all for
the larger reading. -/
theorem overall_level_monotone_counterexample :
    (90:ℚ) < 100 ∧
    (ruleBasedAnalysis (some 90) (some 86000)).toOption.map
        (fun ta => ta.overall_threat_level) = some .critical ∧
    exOk (ruleBasedAnalysis (some 100) (some 86000)) = false := by
  refine ⟨by norm_num, by decide, by decide⟩

/-- C6 (amended): for temperature = 106 °F and grid demand = 82000 MW the
pipeline classifies critical with threat types {heat wave, grid strain}, and
the deduplicated action list is exactly: thermostat set to 65 °F
(mode cool, fan high), battery set to soc 100 / reserve 50, and a grid
connection-status action with mode `emergency` — the critical-emergency
override's grid action overwrites the grid-strain tier's `backup_ready`
in the last-write deduplication pass — with no energy-sale action. -/
theorem heatwave_grid_scenario :
    (ruleBasedAnalysis (some 106) (some 82000)).toOption.map
        (fun ta => (ta.overall_threat_level, ta.threat_types, generateHomeActions ta)) =
      some (.critical, [.heat_wave, .grid_strain],
        [⟨.thermostat, .set,
          [("temperature", .num 65), ("mode", .str "cool"), ("fan_mode", .str "high")], none⟩,
         ⟨.battery, .set, [("soc_percent", .num 100), ("backup_reserve", .num 50)], none⟩,
         ⟨.grid, .set, [("connection_status", .str "emergency")], none⟩]) ∧
    (ruleBasedAnalysis (some 106) (some 82000)).toOption.map
        (fun ta => (generateHomeActions ta).all
          (fun a => (lookupParam "sell_energy" a.parameters).isNone)) = some true := by
  constructor <;> decide

/-- C6 (counterexample): in that same scenario no generated action carries
`connection_status = "backup_ready"` — the claim's expected grid
`backup_ready` action is not in the final list (the emergency override
overwrote it), so the claim as stated is false. -/
theorem heatwave_grid_scenario_no_backup_ready :
    (ruleBasedAnalysis (some 106) (some 82000)).toOption.map
        (fun ta => (generateHomeActions ta).all
          (fun a => lookupParam "connection_status" a.parameters ≠ some (.str "backup_ready"))) =
      some true := by
  decide

end Aura

namespace Aura

/-! ## Deduplication lemmas (`_deduplicate_actions`) -/

/-- Overwriting an action in place does not change the key sequence. -/
theorem replaceFirst_map_key (acc : List Action) (a : Action) :
    (replaceFirst acc a).map actionKey = acc.map actionKey := by
  induction acc with
  | nil => rfl
  | cons b rest ih =>
      by_cases h : actionKey b = actionKey a
      · simp [replaceFirst, h]
      · simp [replaceFirst, h, ih]

/-- With duplicate-free keys, every member of `replaceFirst acc a` is either
the new action `a` or an untouched member of `acc` with a different key. -/
theorem replaceFirst_mem (acc : List Action) (a : Action)
    (hnd : (acc.map actionKey).Nodup) :
    ∀ b ∈ replaceFirst acc a, b = a ∨ (b ∈ acc ∧ actionKey b ≠ actionKey a) := by
  induction acc with
  | nil => intro b hb; simp [replaceFirst] at hb
  | cons c cs ih =>
      intro b hb
      simp only [List.map_cons, List.nodup_cons] at hnd
      by_cases hc : actionKey c = actionKey a
      · simp only [replaceFirst, if_pos hc] at hb
        rcases List.mem_cons.mp hb with rfl | hb'
        · exact Or.inl rfl
        · refine Or.inr ⟨List.mem_cons_of_mem _ hb', ?_⟩
          intro hk
          exact hnd.1 (by rw [hc, ← hk]; exact List.mem_map_of_mem actionKey hb')
      · simp only [replaceFirst, if_neg hc] at hb
        rcases List.mem_cons.mp hb with rfl | hb'
        · exact Or.inr ⟨List.mem_cons_self _ _, hc⟩
        · rcases ih hnd.2 b hb' with h | ⟨hmem, hne⟩
          · exact Or.inl h
          · exact Or.inr ⟨List.mem_cons_of_mem _ hmem, hne⟩

/-- First-occurrence deduplication produces duplicate-free output. -/
theorem firstDedup_nodup {α : Type} [DecidableEq α] (l : List α) : (firstDedup l).Nodup := by
  induction l with
  | nil => exact List.nodup_nil
  | cons x xs ih =>
      simp only [firstDedup, List.nodup_cons]
      refine ⟨fun hx => ?_, ih.filter _⟩
      simp at hx

/-- A duplicate-free list is its own first-occurrence deduplication. -/
theorem firstDedup_eq_self {α : Type} [DecidableEq α] (l : List α) (h : l.Nodup) :
    firstDedup l = l := by
  induction l with
  | nil => rfl
  | cons x xs ih =>
      simp only [List.nodup_cons] at h
      simp only [firstDedup, ih h.2]
      rw [List.filter_eq_self.mpr]
      intro y hy
      simp only [decide_eq_true_eq]
      exact fun hxy => h.1 (hxy ▸ hy)

/-- Filtering a key away commutes past a mid-list occurrence of that key. -/
theorem filter_firstDedup_middle {α : Type} [DecidableEq α] (zs ys : List α) (k : α) :
    (firstDedup (zs ++ k :: ys)).filter (fun y => y ≠ k) =
      (firstDedup (zs ++ ys)).filter (fun y => y ≠ k) := by
  induction zs with
  | nil =>
      simp only [List.nil_append, firstDedup]
      rw [List.filter_cons_of_neg (by simp), List.filter_filter]
      simp
  | cons z zs' ih =>
      simp only [List.cons_append, firstDedup]
      by_cases hz : z = k
      · subst hz
        rw [List.filter_cons_of_neg (by simp), List.filter_cons_of_neg (by simp)]
        simp only [List.filter_filter, Bool.and_self]
        exact ih
      · rw [List.filter_cons_of_pos (by simp [hz]), List.filter_cons_of_pos (by simp [hz])]
        have hsw : ∀ l : List α,
            List.filter (fun y => decide (y ≠ k)) (List.filter (fun y => decide (y ≠ z)) l) =
              List.filter (fun y => decide (y ≠ z)) (List.filter (fun y => decide (y ≠ k)) l) :=
          fun l => List.filter_comm _ _ l
        rw [hsw, hsw]
        exact congrArg (fun t => z :: List.filter (fun y => y ≠ z) t) ih

/-- A later duplicate of an element already present is dropped by
first-occurrence deduplication. -/
theorem firstDedup_middle_mem {α : Type} [DecidableEq α] (xs ys : List α) (k : α)
    (hk : k ∈ xs) : firstDedup (xs ++ k :: ys) = firstDedup (xs ++ ys) := by
  induction xs with
  | nil => simp at hk
  | cons x xs' ih =>
      simp only [List.cons_append, firstDedup]
      rcases List.mem_cons.mp hk with rfl | hk'
      · exact congrArg (fun t => k :: t) (filter_firstDedup_middle xs' ys k)
      · exact congrArg (fun t => x :: List.filter (fun y => y ≠ x) t) (ih hk')

/-- Key sequence of the deduplication walk: the accumulator's keys (assumed
duplicate-free, as the loop maintains) followed by the first occurrences of
the remaining keys. -/
theorem dedupLoop_map_key (rest : List Action) :
    ∀ acc : List Action, (acc.map actionKey).Nodup →
      (dedupLoop acc rest).map actionKey =
        firstDedup (acc.map actionKey ++ rest.map actionKey) := by
  induction rest with
  | nil =>
      intro acc hnd
      simp only [dedupLoop, List.map_nil, List.append_nil]
      exact (firstDedup_eq_self _ hnd).symm
  | cons a rest' ih =>
      intro acc hnd
      by_cases hmem : actionKey a ∈ acc.map actionKey
      · simp only [dedupLoop, if_pos hmem]
        rw [ih (replaceFirst acc a) (by rw [replaceFirst_map_key]; exact hnd),
          replaceFirst_map_key, List.map_cons,
          firstDedup_middle_mem (acc.map actionKey) (rest'.map actionKey) (actionKey a) hmem]
      · simp only [dedupLoop, if_neg hmem]
        rw [ih (acc ++ [a]) (by simp [List.nodup_append, hmem, hnd]),
          List.map_append, List.map_cons]
        simp [List.append_assoc]

/-- Nonempty filtered sublist for a key that occurs in the key sequence. -/
theorem filter_key_ne_nil (l : List Action) (k : DeviceType × ActionType)
    (h : k ∈ l.map actionKey) : l.filter (fun a => actionKey a = k) ≠ [] := by
  rcases List.mem_map.mp h with ⟨a, hal, hak⟩
  intro hnil
  have : a ∈ l.filter (fun a => actionKey a = k) := by
    rw [List.mem_filter]
    exact ⟨hal, by simp [hak]⟩
  rw [hnil] at this
  simp at this

/-- Empty filtered sublist for a key that does not occur. -/
theorem filter_key_eq_nil (l : List Action) (k : DeviceType × ActionType)
    (h : k ∉ l.map actionKey) : l.filter (fun a => actionKey a = k) = [] := by
  rw [List.filter_eq_nil_iff]
  intro a hal
  simp only [decide_eq_true_eq]
  intro hak
  exact h (by rw [← hak]; exact List.mem_map_of_mem actionKey hal)

/-- `lastWithKey` ignores a head with a different key. -/
theorem lastWithKey_cons_of_ne (a : Action) (l : List Action) (k : DeviceType × ActionType)
    (h : actionKey a ≠ k) : lastWithKey (a :: l) k = lastWithKey l k := by
  have hf : List.filter (fun x => decide (actionKey x = k)) (a :: l) =
      List.filter (fun x => decide (actionKey x = k)) l :=
    List.filter_cons_of_neg (by simp [h])
  simp only [lastWithKey, hf]

/-- `lastWithKey` ignores a head whose key recurs later. -/
theorem lastWithKey_cons_of_mem (a : Action) (l : List Action) (k : DeviceType × ActionType)
    (hk : actionKey a = k) (hmem : k ∈ l.map actionKey) :
    lastWithKey (a :: l) k = lastWithKey l k := by
  have hf : List.filter (fun x => decide (actionKey x = k)) (a :: l) =
      a :: List.filter (fun x => decide (actionKey x = k)) l :=
    List.filter_cons_of_pos (by simp [hk])
  simp only [lastWithKey, hf]
  rcases hl : l.filter (fun x => decide (actionKey x = k)) with _ | ⟨b, bs⟩
  · exact absurd hl (filter_key_ne_nil l k hmem)
  · exact List.getLast?_cons_cons

/-- `lastWithKey` returns the head when its key never recurs. -/
theorem lastWithKey_cons_of_not_mem (a : Action) (l : List Action)
    (k : DeviceType × ActionType) (hk : actionKey a = k) (hmem : k ∉ l.map actionKey) :
    lastWithKey (a :: l) k = some a := by
  have hf : List.filter (fun x => decide (actionKey x = k)) (a :: l) =
      a :: List.filter (fun x => decide (actionKey x = k)) l :=
    List.filter_cons_of_pos (by simp [hk])
  simp only [lastWithKey, hf, filter_key_eq_nil l k hmem]
  rfl

/-- Value characterisation of the deduplication walk: every output entry whose
key occurs in the remaining input carries the *last* input action with that
key; every other output entry is an untouched accumulator entry. -/
theorem dedupLoop_mem (rest : List Action) :
    ∀ acc : List Action, (acc.map actionKey).Nodup →
      ∀ b ∈ dedupLoop acc rest,
        (actionKey b ∈ rest.map actionKey ∧ lastWithKey rest (actionKey b) = some b) ∨
          (actionKey b ∉ rest.map actionKey ∧ b ∈ acc) := by
  induction rest with
  | nil =>
      intro acc _ b hb
      exact Or.inr ⟨by simp, hb⟩
  | cons a rest' ih =>
      intro acc hnd b hb
      by_cases hmem : actionKey a ∈ acc.map actionKey
      · simp only [dedupLoop, if_pos hmem] at hb
        have hnd' : ((replaceFirst acc a).map actionKey).Nodup := by
          rw [replaceFirst_map_key]; exact hnd
        rcases ih (replaceFirst acc a) hnd' b hb with ⟨hin, hlast⟩ | ⟨hnin, hacc⟩
        · refine Or.inl ⟨List.mem_cons_of_mem _ hin, ?_⟩
          by_cases hkey : actionKey a = actionKey b
          · rw [lastWithKey_cons_of_mem a rest' (actionKey b) hkey hin]
            exact hlast
          · rw [lastWithKey_cons_of_ne a rest' (actionKey b) (fun hh => hkey hh)]
            exact hlast
        · rcases replaceFirst_mem acc a hnd b hacc with rfl | ⟨hbacc, hbne⟩
          · refine Or.inl ⟨by simp, ?_⟩
            exact lastWithKey_cons_of_not_mem b rest' (actionKey b) rfl hnin
          · refine Or.inr ⟨?_, hbacc⟩
            simp only [List.map_cons, List.mem_cons]
            rintro (h | h)
            · exact hbne h
            · exact hnin h
      · simp only [dedupLoop, if_neg hmem] at hb
        have hnd' : ((acc ++ [a]).map actionKey).Nodup := by
          simp [List.nodup_append, hnd, hmem]
        rcases ih (acc ++ [a]) hnd' b hb with ⟨hin, hlast⟩ | ⟨hnin, hacc⟩
        · refine Or.inl ⟨List.mem_cons_of_mem _ hin, ?_⟩
          by_cases hkey : actionKey a = actionKey b
          · rw [lastWithKey_cons_of_mem a rest' (actionKey b) hkey hin]
            exact hlast
          · rw [lastWithKey_cons_of_ne a rest' (actionKey b) (fun hh => hkey hh)]
            exact hlast
        · rcases List.mem_append.mp hacc with hbacc | hba
          · refine Or.inr ⟨?_, hbacc⟩
            simp only [List.map_cons, List.mem_cons]
            rintro (h | h)
            · exact hmem (h ▸ List.mem_map_of_mem actionKey hbacc)
            · exact hnin h
          · have hba' : b = a := by simpa using hba
            subst hba'
            refine Or.inl ⟨by simp, ?_⟩
            exact lastWithKey_cons_of_not_mem b rest' (actionKey b) rfl hnin

/-- C5: for every threat assessment, the generator's output (the
deduplication pass over the concatenated per-rule list) contains no two
actions with the same `(device_type, action_type)` pair; its key sequence is
the first-occurrence order of the raw list's keys (first-seen slot), and each
entry is the last raw action carrying its key (last-write value). -/
theorem generate_actions_dedup (ta : ThreatAnalysis) :
    generateHomeActions ta = deduplicateActions (rawHomeActions ta) ∧
    ((generateHomeActions ta).map actionKey).Nodup ∧
    (generateHomeActions ta).map actionKey = firstDedup ((rawHomeActions ta).map actionKey) ∧
    ∀ b ∈ generateHomeActions ta, lastWithKey (rawHomeActions ta) (actionKey b) = some b := by
  have hkeys : (deduplicateActions (rawHomeActions ta)).map actionKey =
      firstDedup ((rawHomeActions ta).map actionKey) := by
    have h := dedupLoop_map_key (rawHomeActions ta) [] (by simp)
    simpa [deduplicateActions] using h
  refine ⟨rfl, ?_, hkeys, ?_⟩
  · show ((deduplicateActions (rawHomeActions ta)).map actionKey).Nodup
    rw [hkeys]
    exact firstDedup_nodup _
  · intro b hb
    have hb' : b ∈ dedupLoop [] (rawHomeActions ta) := hb
    rcases dedupLoop_mem (rawHomeActions ta) [] (by simp) b hb' with ⟨_, hlast⟩ | ⟨_, habs⟩
    · exact hlast
    · simp at habs

/-- C5 (witness): in the 106 °F / 82000 MW assessment, the battery entry of
the generated list is the last battery-set action of the raw list (the
critical-emergency override), sitting at the first-seen battery slot. -/
theorem generate_actions_dedup_witness :
    (⟨.battery, .set, [("soc_percent", .num 100), ("backup_reserve", .num 50)], none⟩ : Action) ∈
      generateHomeActions ⟨.critical, [.heat_wave, .grid_strain], 1,
        [⟨"temperature", 106, 105, .critical, 1⟩, ⟨"grid_demand", 82000, 80000, .high, 1⟩]⟩ ∧
    lastWithKey
        (rawHomeActions ⟨.critical, [.heat_wave, .grid_strain], 1,
          [⟨"temperature", 106, 105, .critical, 1⟩, ⟨"grid_demand", 82000, 80000, .high, 1⟩]⟩)
        (actionKey ⟨.battery, .set, [("soc_percent", .num 100), ("backup_reserve", .num 50)], none⟩) =
      some ⟨.battery, .set, [("soc_percent", .num 100), ("backup_reserve", .num 50)], none⟩ :=
  ⟨by decide,
   (generate_actions_dedup ⟨.critical, [.heat_wave, .grid_strain], 1,
      [⟨"temperature", 106, 105, .critical, 1⟩,
       ⟨"grid_demand", 82000, 80000, .high, 1⟩]⟩).2.2.2 _ (by decide)⟩

end Aura

namespace Aura

/-! ## Coordinator lemmas (`vapi_webhook` / `process_follow_up_call`) -/

/-- Removal removes: the discarded id is gone from the list-as-set. -/
theorem not_mem_filter_ne_self (l : List String) (cid : String) :
    cid ∉ l.filter (fun x => x ≠ cid) := by
  simp

/-- A call-ended event whose id is not a tracked warning call is acknowledged
as `not_warning_call` with no state change and no scheduled task. -/
theorem vapiWebhook_not_warning (e : WebhookEvent) (s : CoordState) (cid : String)
    (hend : isCallEnded e = true) (hskip : reasonSkipped e.ended_reason = false)
    (hcid : e.call_id = some cid) (hw : cid ∉ s.warning_call_ids) :
    vapiWebhook e s = ("not_warning_call", s, []) := by
  simp [vapiWebhook, hend, hskip, hcid, hw]

/-- C1: delivering the same call-ended event (reason outside the skip set)
twice: the second delivery is acknowledged `already_queued` or
`not_warning_call`, inserts nothing into the pending-follow-up table and
schedules nothing; across both deliveries at most one follow-up task is
scheduled and at most one pending entry keyed by the event's call id is
inserted. -/
theorem webhook_duplicate_delivery_idempotent (s : CoordState) (e : WebhookEvent) (cid : String)
    (hend : isCallEnded e = true)
    (hskip : reasonSkipped e.ended_reason = false)
    (hcid : e.call_id = some cid) :
    ((vapiWebhook e (vapiWebhook e s).2.1).1 = "already_queued" ∨
      (vapiWebhook e (vapiWebhook e s).2.1).1 = "not_warning_call") ∧
    (vapiWebhook e (vapiWebhook e s).2.1).2.1.pending_follow_ups =
      (vapiWebhook e s).2.1.pending_follow_ups ∧
    (vapiWebhook e (vapiWebhook e s).2.1).2.2 = [] ∧
    (vapiWebhook e s).2.2.length ≤ 1 ∧
    ((vapiWebhook e s).2.1.pending_follow_ups.filter (fun p => p.1 = cid)).length ≤
      (s.pending_follow_ups.filter (fun p => p.1 = cid)).length + 1 := by
  by_cases hw : cid ∈ s.warning_call_ids
  · have hw2 : cid ∉ (s.warning_call_ids.filter (fun x => x ≠ cid)) :=
      not_mem_filter_ne_self _ _
    by_cases ht : (optTruthy (some cid) && optTruthy e.customer_number) = true
    · have ht' : optTruthy (some cid) = true ∧ optTruthy e.customer_number = true := by
        rw [Bool.and_eq_true] at ht
        exact ht
      by_cases hp : ((lookupPending cid s.pending_follow_ups).isSome = true)
      · have h1 : vapiWebhook e s =
            ("already_queued",
             { s with warning_call_ids := s.warning_call_ids.filter (fun x => x ≠ cid) }, []) := by
          simp [vapiWebhook, hend, hskip, hcid, hw, ht'.1, ht'.2, hp]
        have h2 := vapiWebhook_not_warning e
          { s with warning_call_ids := s.warning_call_ids.filter (fun x => x ≠ cid) }
          cid hend hskip hcid hw2
        rw [h1]
        rw [h2]
        simp
      · have h1 : vapiWebhook e s =
            ("processed",
             { s with warning_call_ids := s.warning_call_ids.filter (fun x => x ≠ cid),
                      pending_follow_ups :=
                        s.pending_follow_ups ++ [(cid, ⟨e.customer_number.getD "", false⟩)] },
             [(cid, e.customer_number.getD "")]) := by
          simp [vapiWebhook, hend, hskip, hcid, hw, ht'.1, ht'.2, hp]
        have h2 := vapiWebhook_not_warning e
          { s with warning_call_ids := s.warning_call_ids.filter (fun x => x ≠ cid),
                   pending_follow_ups :=
                     s.pending_follow_ups ++ [(cid, ⟨e.customer_number.getD "", false⟩)] }
          cid hend hskip hcid hw2
        rw [h1]
        rw [h2]
        simp [List.filter_append]
    · have h1 : vapiWebhook e s =
          ("processed",
           { s with warning_call_ids := s.warning_call_ids.filter (fun x => x ≠ cid) }, []) := by
        simp only [vapiWebhook, hend, hskip, hcid]
        simp [hw, ht]
      have h2 := vapiWebhook_not_warning e
        { s with warning_call_ids := s.warning_call_ids.filter (fun x => x ≠ cid) }
        cid hend hskip hcid hw2
      rw [h1]
      rw [h2]
      simp
  · have h1 := vapiWebhook_not_warning e s cid hend hskip hcid hw
    rw [h1]
    rw [h1]
    simp

/-- C1 (witness): the tracked warning call `"abc"`, delivered the same
`end-of-call-report` twice. -/
theorem webhook_duplicate_delivery_idempotent_witness :
    (isCallEnded ⟨"end-of-call-report", none, some "abc", some "+15551230000",
        some "customer-ended-call"⟩ = true) ∧
    (reasonSkipped (some "customer-ended-call") = false) ∧
    ((vapiWebhook ⟨"end-of-call-report", none, some "abc", some "+15551230000",
          some "customer-ended-call"⟩
        (vapiWebhook ⟨"end-of-call-report", none, some "abc", some "+15551230000",
            some "customer-ended-call"⟩ ⟨["abc"], [], []⟩).2.1).1 = "already_queued" ∨
      (vapiWebhook ⟨"end-of-call-report", none, some "abc", some "+15551230000",
          some "customer-ended-call"⟩
        (vapiWebhook ⟨"end-of-call-report", none, some "abc", some "+15551230000",
            some "customer-ended-call"⟩ ⟨["abc"], [], []⟩).2.1).1 = "not_warning_call") ∧
    (vapiWebhook ⟨"end-of-call-report", none, some "abc", some "+15551230000",
        some "customer-ended-call"⟩
      (vapiWebhook ⟨"end-of-call-report", none, some "abc", some "+15551230000",
          some "customer-ended-call"⟩ ⟨["abc"], [], []⟩).2.1).2.1.pending_follow_ups =
      (vapiWebhook ⟨"end-of-call-report", none, some "abc", some "+15551230000",
          some "customer-ended-call"⟩ ⟨["abc"], [], []⟩).2.1.pending_follow_ups ∧
    (vapiWebhook ⟨"end-of-call-report", none, some "abc", some "+15551230000",
        some "customer-ended-call"⟩
      (vapiWebhook ⟨"end-of-call-report", none, some "abc", some "+15551230000",
          some "customer-ended-call"⟩ ⟨["abc"], [], []⟩).2.1).2.2 = [] ∧
    (vapiWebhook ⟨"end-of-call-report", none, some "abc", some "+15551230000",
        some "customer-ended-call"⟩ ⟨["abc"], [], []⟩).2.2.length ≤ 1 ∧
    (((vapiWebhook ⟨"end-of-call-report", none, some "abc", some "+15551230000",
          some "customer-ended-call"⟩ ⟨["abc"], [], []⟩).2.1.pending_follow_ups.filter
        (fun p => p.1 = "abc")).length ≤
      ((⟨["abc"], [], []⟩ : CoordState).pending_follow_ups.filter
        (fun p => p.1 = "abc")).length + 1) :=
  ⟨by decide, by decide,
   webhook_duplicate_delivery_idempotent ⟨["abc"], [], []⟩
     ⟨"end-of-call-report", none, some "abc", some "+15551230000", some "customer-ended-call"⟩
     "abc" (by decide) (by decide) rfl⟩

end Aura

namespace Aura

/-- The webhook handler never touches `resolution_call_ids`. -/
theorem vapiWebhook_resolution_eq (e : WebhookEvent) (s : CoordState) :
    (vapiWebhook e s).2.1.resolution_call_ids = s.resolution_call_ids := by
  rcases hc : e.call_id with _ | cid <;>
    simp only [vapiWebhook, hc] <;>
    split_ifs <;> rfl

/-- The webhook handler only ever removes warning-call ids. -/
theorem vapiWebhook_warning_subset (e : WebhookEvent) (s : CoordState) :
    ∀ x ∈ (vapiWebhook e s).2.1.warning_call_ids, x ∈ s.warning_call_ids := by
  rcases hc : e.call_id with _ | cid <;>
    simp only [vapiWebhook, hc] <;>
    split_ifs <;>
    intro x hx <;>
    first
      | exact hx
      | exact (List.mem_filter.mp hx).1

/-- The follow-up task never touches `warning_call_ids`. -/
theorem processFollowUp_warning_eq (cid num : String) (oc : CallOutcome) (s : CoordState) :
    (processFollowUp cid num oc s).warning_call_ids = s.warning_call_ids := by
  rcases hl : lookupPending cid s.pending_follow_ups with _ | info
  · simp [processFollowUp, hl]
  · simp only [processFollowUp, hl]
    split_ifs
    · rfl
    · cases oc with
      | exception => rfl
      | failure => rfl
      | success rid =>
          cases rid with
          | none => rfl
          | some r => simp only [addId]; split_ifs <;> rfl

/-- `set.add` adds nothing but the given id. -/
theorem mem_addId (l : List String) (id x : String) (h : x ∈ addId l id) :
    x ∈ l ∨ x = id := by
  unfold addId at h
  split_ifs at h
  · exact Or.inl h
  · rcases List.mem_append.mp h with h' | h'
    · exact Or.inl h'
    · exact Or.inr (by simpa using h')

/-- `set.add` keeps every existing id. -/
theorem mem_addId_of_mem (l : List String) (id x : String) (h : x ∈ l) : x ∈ addId l id := by
  unfold addId
  split_ifs
  · exact h
  · exact List.mem_append_left _ h

/-- Resolution ids recorded by a follow-up run: previously recorded, or the
freshly placed resolution call's id. -/
theorem processFollowUp_resolution_sub (cid num : String) (oc : CallOutcome) (s : CoordState) :
    ∀ id ∈ (processFollowUp cid num oc s).resolution_call_ids,
      id ∈ s.resolution_call_ids ∨ ∃ r, oc = .success (some r) ∧ id = r := by
  rcases hl : lookupPending cid s.pending_follow_ups with _ | info
  · simp only [processFollowUp, hl]
    exact fun id h => Or.inl h
  · simp only [processFollowUp, hl]
    split_ifs
    · exact fun id h => Or.inl h
    · cases oc with
      | exception => exact fun id h => Or.inl h
      | failure => exact fun id h => Or.inl h
      | success rid =>
          cases rid with
          | none => exact fun id h => Or.inl h
          | some r =>
              intro id h
              simp only at h
              split_ifs at h
              · rcases mem_addId _ _ _ h with h' | h'
                · exact Or.inl h'
                · exact Or.inr ⟨r, rfl, h'⟩
              · exact Or.inl h

/-- Safety invariant of the coordinator (C2's guard): on every reachable
state, no recorded resolution-call id is simultaneously a tracked warning
call, so rule 3 of the webhook handler rejects it. -/
theorem coord_disjoint (s : CoordState) (hs : CoordReachable s) :
    ∀ id ∈ s.resolution_call_ids, id ∉ s.warning_call_ids := by
  induction hs with
  | init => intro id h; simp [initCoordState] at h
  | @step t t' _ hstep ih =>
      cases hstep with
      | placeWarning wid _ hfresh =>
          intro id hid
          have hres : (trackWarningCall (some wid) t).resolution_call_ids =
              t.resolution_call_ids := by
            simp only [trackWarningCall]
            split_ifs <;> rfl
          rw [hres] at hid
          simp only [trackWarningCall]
          split_ifs with hw
          · intro hmem
            rcases mem_addId _ _ _ hmem with h' | h'
            · exact ih id hid h'
            · exact hfresh (h' ▸ hid)
          · exact ih id hid
      | webhook e _ =>
          intro id hid
          rw [vapiWebhook_resolution_eq] at hid
          intro hmem
          exact ih id hid (vapiWebhook_warning_subset e _ id hmem)
      | followUp cid num oc _ hfresh =>
          intro id hid
          rw [processFollowUp_warning_eq]
          rcases processFollowUp_resolution_sub cid num oc _ id hid with h' | ⟨r, hoc, rfl⟩
          · exact ih id h'
          · exact hfresh id hoc

/-- Resolution ids persist across any number of coordinator transitions. -/
theorem resolution_mono (t t' : CoordState) (hstep : CoordStep t t') :
    ∀ id ∈ t.resolution_call_ids, id ∈ t'.resolution_call_ids := by
  cases hstep with
  | placeWarning wid _ _ =>
      intro id hid
      simp only [trackWarningCall]
      split_ifs <;> exact hid
  | webhook e _ =>
      intro id hid
      rw [vapiWebhook_resolution_eq]
      exact hid
  | followUp cid num oc _ _ =>
      intro id hid
      rcases hl : lookupPending cid t.pending_follow_ups with _ | info
      · simp only [processFollowUp, hl]
        exact hid
      · simp only [processFollowUp, hl]
        split_ifs
        · exact hid
        · cases oc with
          | exception => exact hid
          | failure => exact hid
          | success rid =>
              cases rid with
              | none => exact hid
              | some r =>
                  simp only
                  split_ifs
                  · exact mem_addId_of_mem _ _ _ hid
                  · exact hid

/-- Reachability is transported along further transitions. -/
theorem coordReachable_trans (s s' : CoordState) (hs : CoordReachable s)
    (hsteps : Relation.ReflTransGen CoordStep s s') : CoordReachable s' := by
  induction hsteps with
  | refl => exact hs
  | tail _ hstep ih => exact CoordReachable.step ih hstep

end Aura

namespace Aura

/-- C2 (amended): a call id recorded in `resolution_call_ids` on any reachable
coordinator state never causes anything to be queued by any later webhook
delivery carrying it — the state is untouched and no follow-up task is
scheduled; a call-ended delivery for it is acknowledged `not_warning_call`
when its reason is outside the skip set (and `skipped`, not
`not_warning_call`, when the reason is in the skip set). -/
theorem resolution_ids_never_requeue (s s' : CoordState) (cid : String) (e : WebhookEvent)
    (hreach : CoordReachable s) (hres : cid ∈ s.resolution_call_ids)
    (hsteps : Relation.ReflTransGen CoordStep s s')
    (hcid : e.call_id = some cid) :
    (vapiWebhook e s').2.1 = s' ∧ (vapiWebhook e s').2.2 = [] ∧
      (isCallEnded e = true → reasonSkipped e.ended_reason = false →
        (vapiWebhook e s').1 = "not_warning_call") := by
  have hres' : cid ∈ s'.resolution_call_ids := by
    clear hreach
    induction hsteps with
    | refl => exact hres
    | tail _ hstep ih => exact resolution_mono _ _ hstep cid ih
  have hreach' : CoordReachable s' := coordReachable_trans s s' hreach hsteps
  have hw : cid ∉ s'.warning_call_ids := coord_disjoint s' hreach' cid hres'
  by_cases h1 : isCallEnded e = true
  · by_cases h2 : reasonSkipped e.ended_reason = true
    · refine ⟨?_, ?_, ?_⟩ <;> simp [vapiWebhook, h1, h2, hcid]
    · have h3 := vapiWebhook_not_warning e s' cid h1 (by simpa using h2) hcid hw
      rw [h3]
      exact ⟨rfl, rfl, fun _ _ => rfl⟩
  · refine ⟨?_, ?_, ?_⟩ <;> simp [vapiWebhook, h1, hcid]

/-- The concrete state `⟨[], ["res1"], []⟩` is reachable: warning call `w1`
is placed, its ended webhook queues the follow-up, and the follow-up task
places resolution call `res1`. -/
theorem demo_resolution_state_reachable : CoordReachable (⟨[], ["res1"], []⟩ : CoordState) := by
  have st1 := CoordStep.placeWarning "w1" initCoordState (by decide)
  have r1 := CoordReachable.step CoordReachable.init st1
  have st2 := CoordStep.webhook
    ⟨"end-of-call-report", none, some "w1", some "+15551230000", some "customer-ended-call"⟩
    (trackWarningCall (some "w1") initCoordState)
  have r2 := CoordReachable.step r1 st2
  have st3 := CoordStep.followUp "w1" "+15551230000" (.success (some "res1"))
    ((vapiWebhook
        ⟨"end-of-call-report", none, some "w1", some "+15551230000", some "customer-ended-call"⟩
        (trackWarningCall (some "w1") initCoordState)).2.1)
    (by intro rid h; injection h with h'; injection h' with h''; subst h''; decide)
  have r3 := CoordReachable.step r2 st3
  have heq : processFollowUp "w1" "+15551230000" (.success (some "res1"))
      ((vapiWebhook
          ⟨"end-of-call-report", none, some "w1", some "+15551230000", some "customer-ended-call"⟩
          (trackWarningCall (some "w1") initCoordState)).2.1) =
      (⟨[], ["res1"], []⟩ : CoordState) := by decide
  rw [heq] at r3
  exact r3

/-- C2 (witness): on the reachable state holding resolution id `res1`, its
own ended webhook changes nothing, schedules nothing, and is acknowledged
`not_warning_call`. -/
theorem resolution_ids_never_requeue_witness :
    CoordReachable (⟨[], ["res1"], []⟩ : CoordState) ∧
    "res1" ∈ (⟨[], ["res1"], []⟩ : CoordState).resolution_call_ids ∧
    (vapiWebhook
        ⟨"end-of-call-report", none, some "res1", some "+15551230000",
          some "customer-ended-call"⟩
        ⟨[], ["res1"], []⟩).2.1 = (⟨[], ["res1"], []⟩ : CoordState) ∧
    (vapiWebhook
        ⟨"end-of-call-report", none, some "res1", some "+15551230000",
          some "customer-ended-call"⟩
        ⟨[], ["res1"], []⟩).2.2 = [] ∧
    (vapiWebhook
        ⟨"end-of-call-report", none, some "res1", some "+15551230000",
          some "customer-ended-call"⟩
        ⟨[], ["res1"], []⟩).1 = "not_warning_call" :=
  ⟨demo_resolution_state_reachable, by decide,
   (resolution_ids_never_requeue ⟨[], ["res1"], []⟩ ⟨[], ["res1"], []⟩ "res1"
      ⟨"end-of-call-report", none, some "res1", some "+15551230000", some "customer-ended-call"⟩
      demo_resolution_state_reachable (by decide) Relation.ReflTransGen.refl rfl).1,
   (resolution_ids_never_requeue ⟨[], ["res1"], []⟩ ⟨[], ["res1"], []⟩ "res1"
      ⟨"end-of-call-report", none, some "res1", some "+15551230000", some "customer-ended-call"⟩
      demo_resolution_state_reachable (by decide) Relation.ReflTransGen.refl rfl).2.1,
   (resolution_ids_never_requeue ⟨[], ["res1"], []⟩ ⟨[], ["res1"], []⟩ "res1"
      ⟨"end-of-call-report", none, some "res1", some "+15551230000", some "customer-ended-call"⟩
      demo_resolution_state_reachable (by decide) Relation.ReflTransGen.refl rfl).2.2
     (by decide) (by decide)⟩

/-- C2 (counterexample): on that same reachable state, a call-ended webhook
for `res1` whose reason is `assistant-ended-call` is acknowledged `skipped` —
not `not_warning_call` as the claim states (it still queues and schedules
nothing). -/
theorem resolution_call_skip_reason_counterexample :
    CoordReachable (⟨[], ["res1"], []⟩ : CoordState) ∧
    "res1" ∈ (⟨[], ["res1"], []⟩ : CoordState).resolution_call_ids ∧
    isCallEnded
      ⟨"end-of-call-report", none, some "res1", some "+15551230000",
        some "assistant-ended-call"⟩ = true ∧
    (vapiWebhook
        ⟨"end-of-call-report", none, some "res1", some "+15551230000",
          some "assistant-ended-call"⟩
        ⟨[], ["res1"], []⟩).1 = "skipped" ∧
    (vapiWebhook
        ⟨"end-of-call-report", none, some "res1", some "+15551230000",
          some "assistant-ended-call"⟩
        ⟨[], ["res1"], []⟩).1 ≠ "not_warning_call" ∧
    (vapiWebhook
        ⟨"end-of-call-report", none, some "res1", some "+15551230000",
          some "assistant-ended-call"⟩
        ⟨[], ["res1"], []⟩).2.2 = [] :=
  ⟨demo_resolution_state_reachable, by decide, by decide, by decide, by decide, by decide⟩

end Aura

namespace Aura

/-- Marking a pending record processed keeps it in the table. -/
theorem lookup_markProcessed (l : List (String × FollowUp)) (cid : String) (info : FollowUp)
    (h : lookupPending cid l = some info) :
    lookupPending cid (markProcessed l cid) = some ⟨info.customer_number, true⟩ := by
  induction l with
  | nil => simp [lookupPending] at h
  | cons p rest ih =>
      rcases p with ⟨k, v⟩
      by_cases hk : k = cid
      · simp only [lookupPending, if_pos hk] at h
        cases h
        simp [markProcessed, lookupPending, hk]
      · simp only [lookupPending, if_neg hk] at h
        have ih' := ih h
        simp only [markProcessed] at ih'
        simpa [markProcessed, lookupPending, hk] using ih'

/-- Deleting a pending record removes it from the table. -/
theorem lookup_delPending (l : List (String × FollowUp)) (cid : String) :
    lookupPending cid (delPending l cid) = none := by
  induction l with
  | nil => rfl
  | cons p rest ih =>
      by_cases hk : p.1 = cid
      · simpa [delPending, hk] using ih
      · simp only [delPending] at ih ⊢
        rw [List.filter_cons_of_pos (by simpa using hk)]
        simpa [lookupPending, hk] using ih

/-- C3 (amended): an exception raised while placing the resolution call is
swallowed inside the task (`processFollowUp` returns normally, touching
neither call-id set), but the pending record is *not* removed — it survives,
marked processed, so a re-run of the task does nothing; the record is deleted
only when `send_resolution_call` returns normally (success or failure
payload). -/
theorem follow_up_exception_swallowed (s : CoordState) (cid num : String) (info : FollowUp)
    (hl : lookupPending cid s.pending_follow_ups = some info)
    (hp : info.processed = false) :
    lookupPending cid (processFollowUp cid num .exception s).pending_follow_ups =
      some ⟨info.customer_number, true⟩ ∧
    (processFollowUp cid num .exception s).warning_call_ids = s.warning_call_ids ∧
    (processFollowUp cid num .exception s).resolution_call_ids = s.resolution_call_ids ∧
    (∀ oc : CallOutcome, processFollowUp cid num oc (processFollowUp cid num .exception s) =
      processFollowUp cid num .exception s) ∧
    lookupPending cid (processFollowUp cid num .failure s).pending_follow_ups = none ∧
    (∀ rid : Option String,
      lookupPending cid (processFollowUp cid num (.success rid) s).pending_follow_ups = none) := by
  have hmark := lookup_markProcessed s.pending_follow_ups cid info hl
  refine ⟨?_, ?_, ?_, ?_, ?_, ?_⟩
  · simpa [processFollowUp, hl, hp] using hmark
  · simp [processFollowUp, hl, hp]
  · simp [processFollowUp, hl, hp]
  · intro oc
    have hstate : lookupPending cid (processFollowUp cid num .exception s).pending_follow_ups =
        some ⟨info.customer_number, true⟩ := by
      simpa [processFollowUp, hl, hp] using hmark
    generalize hgen : processFollowUp cid num CallOutcome.exception s = s1 at hstate ⊢
    simp [processFollowUp, hstate]
  · simpa [processFollowUp, hl, hp] using
      lookup_delPending (markProcessed s.pending_follow_ups cid) cid
  · intro rid
    cases rid with
    | none =>
        simpa [processFollowUp, hl, hp] using
          lookup_delPending (markProcessed s.pending_follow_ups cid) cid
    | some r =>
        by_cases hr : r = ""
        · simpa [processFollowUp, hl, hp, hr] using
            lookup_delPending (markProcessed s.pending_follow_ups cid) cid
        · simpa [processFollowUp, hl, hp, hr] using
            lookup_delPending (markProcessed s.pending_follow_ups cid) cid

/-- C3 (witness): the concrete pending record `abc` with an exception-raising
resolution call: the record survives marked processed, a re-run (with a
failure outcome) does nothing, and the non-exception outcomes do delete it. -/
theorem follow_up_exception_swallowed_witness :
    (lookupPending "abc" (⟨[], [], [("abc", ⟨"+15551230000", false⟩)]⟩ :
        CoordState).pending_follow_ups = some ⟨"+15551230000", false⟩) ∧
    ((FollowUp.mk "+15551230000" false).processed = false) ∧
    (lookupPending "abc" (processFollowUp "abc" "+15551230000" .exception
        ⟨[], [], [("abc", ⟨"+15551230000", false⟩)]⟩).pending_follow_ups =
      some ⟨"+15551230000", true⟩) ∧
    (processFollowUp "abc" "+15551230000" .failure
        (processFollowUp "abc" "+15551230000" .exception
          ⟨[], [], [("abc", ⟨"+15551230000", false⟩)]⟩) =
      processFollowUp "abc" "+15551230000" .exception
        ⟨[], [], [("abc", ⟨"+15551230000", false⟩)]⟩) ∧
    (lookupPending "abc" (processFollowUp "abc" "+15551230000" .failure
        ⟨[], [], [("abc", ⟨"+15551230000", false⟩)]⟩).pending_follow_ups = none) ∧
    (lookupPending "abc" (processFollowUp "abc" "+15551230000" (.success (some "res9"))
        ⟨[], [], [("abc", ⟨"+15551230000", false⟩)]⟩).pending_follow_ups = none) :=
  ⟨by decide, rfl,
   (follow_up_exception_swallowed ⟨[], [], [("abc", ⟨"+15551230000", false⟩)]⟩
      "abc" "+15551230000" ⟨"+15551230000", false⟩ (by decide) rfl).1,
   (follow_up_exception_swallowed ⟨[], [], [("abc", ⟨"+15551230000", false⟩)]⟩
      "abc" "+15551230000" ⟨"+15551230000", false⟩ (by decide) rfl).2.2.2.1 .failure,
   (follow_up_exception_swallowed ⟨[], [], [("abc", ⟨"+15551230000", false⟩)]⟩
      "abc" "+15551230000" ⟨"+15551230000", false⟩ (by decide) rfl).2.2.2.2.1,
   (follow_up_exception_swallowed ⟨[], [], [("abc", ⟨"+15551230000", false⟩)]⟩
      "abc" "+15551230000" ⟨"+15551230000", false⟩ (by decide) rfl).2.2.2.2.2
     (some "res9")⟩

/-- C3 (counterexample): after the exception, the pending record for `abc` is
*still in the table* (marked processed), contradicting the claim that it "is
still removed from the pending-follow-up table afterwards". -/
theorem follow_up_exception_record_remains :
    (processFollowUp "abc" "+15551230000" .exception
        (⟨[], [], [("abc", ⟨"+15551230000", false⟩)]⟩ : CoordState)).pending_follow_ups =
      [("abc", ⟨"+15551230000", true⟩)] ∧
    lookupPending "abc" (processFollowUp "abc" "+15551230000" .exception
        (⟨[], [], [("abc", ⟨"+15551230000", false⟩)]⟩ :
          CoordState)).pending_follow_ups ≠ none := by
  constructor <;> decide

end Aura
